import Mathlib

/-!
Formal model of the WhatsConnect messaging core: the sentiment classifier,
the conversation aggregation read, the inbound message ingestion handler,
the outbound send pipeline, and the connection retry state machine, as
implemented in src/server/routes/conversations.js and the Message schema.

Conventions of the embedding:
* JavaScript strings are Lean Strings; the inputs in scope are ASCII, so
  JavaScript toLowerCase coincides with mapping Char.toLower.
* Timestamps are naturals counting milliseconds (transport-event
  timestamps arrive in seconds and are multiplied by 1000, as in the
  source).
* The two sentiment scores 0.7 and 0.5 are rationals; they are given as
  explicit reduced fractions (score07, score05) so that concrete record
  equalities are kernel-decidable, with bridging lemmas identifying them
  with 7/10 and 1/2.
* Database collections are association lists; a generated object id is a
  natural passed in as a parameter where the source lets the database
  generate one.
-/

namespace WhatsConnect

/-- JavaScript toLowerCase, restricted to the ASCII range used here. -/
def toLowerStr (s : String) : String := String.mk (s.data.map Char.toLower)

/-- Containment of one character list inside another, checked at every
suffix; the executable core of JavaScript String.prototype.includes. -/
def listContains (w : List Char) : List Char → Bool
  | [] => w.isEmpty
  | c :: cs => List.isPrefixOf w (c :: cs) || listContains w cs

/-- JavaScript String.prototype.includes: substring containment. -/
def occursIn (w s : String) : Bool := listContains w.data s.data

/-- JavaScript phone.replace slash D slash g: strip every non-digit. -/
def stripNonDigits (s : String) : String := String.mk (s.data.filter Char.isDigit)

/-- JavaScript s.substring(s.length - 4): the trailing four characters. -/
def takeLast4 (s : String) : String := String.mk (s.data.drop (s.data.length - 4))

/-- Replace the first occurrence of a pattern, as JavaScript
String.prototype.replace does with a string pattern. -/
def replaceFirstAux (pat rep : List Char) : List Char → List Char
  | [] => []
  | c :: cs =>
      if List.isPrefixOf pat (c :: cs) then rep ++ (c :: cs).drop pat.length
      else c :: replaceFirstAux pat rep cs

/-- JavaScript s.replace(pat, rep) with a string pattern (first occurrence
only); used for stripping the transport suffix from a sender id. -/
def replaceFirstStr (s pat rep : String) : String :=
  String.mk (replaceFirstAux pat.data rep.data s.data)

/-- JavaScript String.prototype.trim restricted to ASCII whitespace:
drop whitespace from both ends (a structurally recursive equivalent of
the library trim, kept executable down to the kernel). -/
def trimStr (s : String) : String :=
  String.mk (((s.data.dropWhile Char.isWhitespace).reverse.dropWhile
    Char.isWhitespace).reverse)

/-- The sentiment score 0.7 stored with positive and negative labels. -/
def score07 : ℚ := ⟨7, 10, by norm_num, by norm_num⟩

/-- The sentiment score 0.5 stored with the neutral label. -/
def score05 : ℚ := ⟨1, 2, by norm_num, by norm_num⟩

/-- Result record of the sentiment classifier. -/
structure SentimentResult where
  sentiment : String
  score : ℚ
deriving DecidableEq, Repr

/-- The fixed positive keyword list of analyzeSentiment
(conversations.js line 127; identical in analyzeSentimentSimple). -/
def positiveWords : List String :=
  ["thank", "thanks", "great", "good", "excellent", "happy", "satisfied",
   "love", "perfect", "awesome", "amazing", "wonderful", "pleased"]

/-- The fixed negative keyword list of analyzeSentiment
(conversations.js line 128; identical in analyzeSentimentSimple). -/
def negativeWords : List String :=
  ["bad", "terrible", "worst", "angry", "frustrated", "disappointed",
   "hate", "problem", "issue", "error", "wrong", "broken", "refund",
   "cancel", "complaint"]

/-- analyzeSentiment (conversations.js lines 124-136): lower-case the
text, count the keywords of each fixed list that occur as substrings,
and compare the two counts strictly. -/
def analyzeSentiment (message : String) : SentimentResult :=
  let lowerMsg := toLowerStr message
  let positiveCount := (positiveWords.filter (fun word => occursIn word lowerMsg)).length
  let negativeCount := (negativeWords.filter (fun word => occursIn word lowerMsg)).length
  if negativeCount > positiveCount then { sentiment := "negative", score := score07 }
  else if positiveCount > negativeCount then { sentiment := "positive", score := score07 }
  else { sentiment := "neutral", score := score05 }

/-- A Contact document: the fields of the Contact model read and written
by the messaging core (the database object id is modelled as a natural). -/
structure Contact where
  id : Nat
  name : String
  phone : String
  queryStatus : String
  unreadCount : Nat
  lastContacted : Option Nat
deriving DecidableEq, Repr

/-- A Message document, after the schema of models/Message.js: direction,
body, millisecond timestamp, delivery status, and the sentiment fields
whose schema defaults are neutral and 0.5. -/
structure Msg where
  contactId : Option Nat
  phone : String
  direction : String
  message : String
  timestamp : Nat
  status : String
  sentiment : String
  sentimentScore : ℚ
deriving DecidableEq, Repr

/-! The conversation aggregation read (GET of conversations.js, first
document, lines 44-106). -/

/-- The SLA record produced by calculateSLATime. -/
structure SLAInfo where
  overdue : Bool
  minutes : Nat
  text : String
  urgent : Bool
deriving DecidableEq, Repr

/-- calculateSLATime (conversations.js lines 7-41) with the default
threshold of two hours; times are milliseconds, division floors as
JavaScript Math.floor does on the signed difference. -/
def calculateSLATime (lastMessageTime : Option Nat) (now : Nat) : Option SLAInfo :=
  match lastMessageTime with
  | none => none
  | some lastMsg =>
    let diffMs : Int := (now : Int) - (lastMsg : Int)
    let diffMins : Int := Int.fdiv diffMs 60000
    let remainingMins : Int := (2 * 60 : Int) - diffMins
    if remainingMins ≤ 0 then
      some { overdue := true, minutes := remainingMins.natAbs,
             text := toString remainingMins.natAbs ++ "m overdue", urgent := true }
    else if remainingMins ≤ 30 then
      some { overdue := false, minutes := remainingMins.natAbs,
             text := toString remainingMins.natAbs ++ "m remaining", urgent := true }
    else
      let hours := Int.fdiv remainingMins 60
      let mins := Int.emod remainingMins 60
      some { overdue := false, minutes := remainingMins.natAbs,
             text := toString hours.natAbs ++ "h " ++ toString mins.natAbs ++ "m remaining",
             urgent := false }

/-- The negative keyword list local to the aggregation read
(conversations.js line 79) - shorter than the ingestion-side list. -/
def negativeWordsView : List String :=
  ["bad", "terrible", "worst", "angry", "frustrated", "disappointed",
   "hate", "problem", "issue", "error"]

/-- The positive keyword list local to the aggregation read
(conversations.js line 80) - shorter than the ingestion-side list. -/
def positiveWordsView : List String :=
  ["thank", "great", "good", "excellent", "happy", "satisfied", "love", "perfect"]

/-- The sentiment block of the aggregation read (conversations.js lines
76-85): neutral unless the fetched last message is inbound, in which case
its text is reclassified against the reduced keyword lists. -/
def viewSentiment (lastMessage : Option Msg) : String :=
  match lastMessage with
  | none => "neutral"
  | some lm =>
    if lm.direction == "inbound" then
      let lowerMsg := toLowerStr lm.message
      let negCount := (negativeWordsView.filter (fun w => occursIn w lowerMsg)).length
      let posCount := (positiveWordsView.filter (fun w => occursIn w lowerMsg)).length
      if negCount > posCount then "negative"
      else if posCount > negCount then "positive"
      else "neutral"
    else "neutral"

/-- Message.findOne sorted by timestamp descending: the first listed
message among those of maximal timestamp, none on the empty group. -/
def latestMsg : List Msg → Option Msg
  | [] => none
  | m :: ms =>
    match latestMsg ms with
    | none => some m
    | some m' => if m.timestamp < m'.timestamp then some m' else some m

/-- The message group of one aggregation key: all messages whose
contactId equals the key (a null contactId groups under none). -/
def groupOf (msgs : List Msg) (k : Option Nat) : List Msg :=
  msgs.filter (fun m => m.contactId == k)

/-- Maximal timestamp of a message list, zero when empty; the value of
the aggregation field lastMessage used only for the final sort. -/
def maxTs (msgs : List Msg) : Nat :=
  msgs.foldr (fun m acc => max m.timestamp acc) 0

/-- Insert into a list sorted descending by the given key. -/
def insertByDesc {α : Type} (key : α → Nat) (x : α) : List α → List α
  | [] => [x]
  | y :: ys => if key y ≤ key x then x :: y :: ys else y :: insertByDesc key x ys

/-- Insertion sort, descending by the given key; models the sort stage of
the aggregation pipeline. -/
def sortByDesc {α : Type} (key : α → Nat) : List α → List α
  | [] => []
  | x :: xs => insertByDesc key x (sortByDesc key xs)

/-- One entry of the aggregated conversation response: contact document
(possibly null), projected last message, counts, SLA record, sentiment. -/
structure ConvSummary where
  contact : Option Contact
  lastMessage : Option Msg
  messageCount : Nat
  unreadCount : Nat
  sla : Option SLAInfo
  sentiment : String
deriving DecidableEq, Repr

/-- The populate step of the aggregation read, for one group key: find
the contact by id, refetch the newest message of the group, compute the
SLA window from the contact, reclassify the sentiment, and copy the
counts computed by the group stage - in particular unreadCount is the
number of inbound messages of the group. -/
def summarize (contacts : List Contact) (msgs : List Msg) (now : Nat)
    (k : Option Nat) : ConvSummary :=
  let g := groupOf msgs k
  let contact := match k with
    | some cid => contacts.find? (fun c => c.id == cid)
    | none => none
  let lastMessage := latestMsg g
  let slaInfo := match contact with
    | some c => calculateSLATime c.lastContacted now
    | none => none
  { contact := contact
    lastMessage := lastMessage
    messageCount := g.length
    unreadCount := (g.filter (fun m => m.direction == "inbound")).length
    sla := slaInfo
    sentiment := viewSentiment lastMessage }

/-- The distinct group keys of the aggregation stage. -/
def groupKeys (msgs : List Msg) : List (Option Nat) :=
  (msgs.map (fun m => m.contactId)).dedup

/-- The full aggregation read: group messages by contactId, sort the
groups by newest timestamp descending, and populate each group into a
conversation summary. -/
def conversationsView (contacts : List Contact) (msgs : List Msg) (now : Nat) :
    List ConvSummary :=
  (sortByDesc (fun k => maxTs (groupOf msgs k)) (groupKeys msgs)).map
    (summarize contacts msgs now)

/-! The inbound ingestion handler (the message event listener of
conversations.js, lines 228-288). -/

/-- An inbound transport event: sender id with transport suffix, body,
and a timestamp in seconds. -/
structure InboundMsg where
  fromId : String
  body : String
  timestamp : Nat
deriving DecidableEq, Repr

/-- Outcome of the best-effort getContactById enrichment: the returned
object with its pushname and name fields (either possibly undefined), a
null return, or a thrown lookup error. -/
inductive ContactInfoResult where
  | found (pushname : Option String) (nm : Option String)
  | nullInfo
  | failed
deriving DecidableEq, Repr

/-- JavaScript truthiness of an optional string field: present and
non-empty. -/
def truthy : Option String → Bool
  | some s => s ≠ ""
  | none => false

/-- The display-name resolution of the inbound handler (conversations.js
lines 238-248): pushname if truthy, else name if truthy, else the
generic placeholder, which is also used when the lookup throws or
returns null. -/
def resolveName (info : ContactInfoResult) : String :=
  match info with
  | .failed => "Customer"
  | .nullInfo => "Customer"
  | .found pushname nm =>
    if truthy pushname then pushname.getD ""
    else if truthy nm then nm.getD ""
    else "Customer"

/-- The inbound message handler (conversations.js lines 228-288): strip
the transport suffix from the sender, find or create the contact,
update its counters and status, classify the body, and persist an
inbound message carrying the classification. -/
def handleInbound (contacts : List Contact) (msgs : List Msg)
    (m : InboundMsg) (info : ContactInfoResult) (freshContactId : Nat) :
    List Contact × List Msg :=
  let phone := replaceFirstStr m.fromId "@c.us" ""
  let s := analyzeSentiment m.body
  match contacts.find? (fun c => c.phone == phone) with
  | none =>
    let contact : Contact :=
      { id := freshContactId, name := resolveName info, phone := phone,
        queryStatus := "new", unreadCount := 1,
        lastContacted := some (m.timestamp * 1000) }
    let newMsg : Msg :=
      { contactId := some contact.id, phone := phone, direction := "inbound",
        message := m.body, timestamp := m.timestamp * 1000,
        status := "delivered", sentiment := s.sentiment,
        sentimentScore := s.score }
    (contact :: contacts, newMsg :: msgs)
  | some c =>
    let c' : Contact :=
      { c with
        unreadCount := c.unreadCount + 1,
        queryStatus :=
          if c.queryStatus == "resolved" || c.queryStatus == "closed" then "new"
          else c.queryStatus,
        lastContacted := some (m.timestamp * 1000) }
    let newMsg : Msg :=
      { contactId := some c.id, phone := phone, direction := "inbound",
        message := m.body, timestamp := m.timestamp * 1000,
        status := "delivered", sentiment := s.sentiment,
        sentimentScore := s.score }
    (contacts.map (fun x => if x.id == c.id then c' else x), newMsg :: msgs)

/-! The connection manager state machine (module-level client state,
initWhatsApp and retryWithBackoff of conversations.js, lines 138-357). -/

/-- The module-level mutable connection state: whether a client object
exists, the pending QR payload, the ready and initializing flags, and
the retry counter. -/
structure WAState where
  hasClient : Bool
  qrCodeData : Option String
  isReady : Bool
  isInitializing : Bool
  retryCount : Nat
deriving DecidableEq, Repr

/-- The state at module load, before the initial initWhatsApp call. -/
def freshState : WAState :=
  { hasClient := false, qrCodeData := none, isReady := false,
    isInitializing := false, retryCount := 0 }

/-- initWhatsApp (conversations.js lines 146-172): a no-op when a client
already exists or an initialization is in flight; otherwise mark
initializing, reset the retry counter only when asked to, and construct
the client. -/
def initWhatsApp (resetRetryCount : Bool) (s : WAState) : WAState :=
  if s.hasClient || s.isInitializing then s
  else
    { s with
      isInitializing := true,
      retryCount := if resetRetryCount then 0 else s.retryCount,
      hasClient := true }

/-- retryWithBackoff (conversations.js lines 291-321): once the counter
has reached MAX_RETRIES of 3 give up, clearing the client and the
initializing flag and scheduling nothing; otherwise increment the
counter and schedule a retry after min(1000 * 2 ^ (attempt - 1), 10000)
milliseconds. The second component is the scheduled delay, none when no
timer is set. -/
def retryWithBackoff (s : WAState) : WAState × Option Nat :=
  if 3 ≤ s.retryCount then
    ({ s with isInitializing := false, hasClient := false }, none)
  else
    let rc := s.retryCount + 1
    ({ s with retryCount := rc }, some (min (1000 * 2 ^ (rc - 1)) 10000))

/-- One transport initialization failure: the catch clears the
initializing flag (conversations.js line 325) and every error class then
reaches retryWithBackoff. -/
def onInitFailure (s : WAState) : WAState × Option Nat :=
  retryWithBackoff { s with isInitializing := false }

/-- The body of the scheduled retry timer (conversations.js lines
304-320): destroy and null the client, clear the initializing flag, and
reinitialize without resetting the retry counter. -/
def retryTimerFire (s : WAState) : WAState :=
  initWhatsApp false { s with hasClient := false, isInitializing := false }

/-- The delays scheduled across n consecutive initialization failures,
letting each scheduled timer fire before the next failure; none records
a failure that scheduled no retry. -/
def failureDelays : Nat → WAState → List (Option Nat)
  | 0, _ => []
  | n + 1, s =>
    let p := onInitFailure s
    match p.2 with
    | some delay => some delay :: failureDelays n (retryTimerFire p.1)
    | none => none :: failureDelays n p.1

/-- The state after n consecutive initialization failures, letting each
scheduled timer fire before the next failure. -/
def afterFailures : Nat → WAState → WAState
  | 0, s => s
  | n + 1, s =>
    let p := onInitFailure s
    match p.2 with
    | some _ => afterFailures n (retryTimerFire p.1)
    | none => afterFailures n p.1

/-- The synchronous part of the reconnect route (conversations.js lines
627-656): clear every flag and the counter and drop the client. -/
def reconnectHandler (s : WAState) : WAState :=
  { s with
    isInitializing := false, retryCount := 0, hasClient := false,
    isReady := false, qrCodeData := none }

/-- The delayed initWhatsApp call scheduled by the reconnect route. -/
def reconnectSettle (s : WAState) : WAState := initWhatsApp true s

/-! The outbound send pipeline (the send route of conversations.js,
lines 441-624). -/

/-- Outcome of the transport dispatch awaited inside the inner try: the
serialized message id on success, the thrown error text on failure. -/
inductive DispatchResult where
  | ok (messageId : String)
  | err (errorText : String)
deriving DecidableEq, Repr

/-- The HTTP response of the send route: the success body with its
message id, or a failure status with its error text. -/
inductive SendResponse where
  | success (messageId : String) (message : String)
  | failure (status : Nat) (error : String)
deriving DecidableEq, Repr

/-- The inner-catch error classification of the send route
(conversations.js lines 497-555): case-insensitive pattern match on the
thrown error text, mapping to 400, 503, 504, 429 or a generic 500. -/
def classifySendError (isReady hasClient : Bool) (cleanedPhone errText : String) :
    SendResponse :=
  let errorMsg := toLowerStr errText
  if occursIn "t: t" errorMsg || occursIn "not registered" errorMsg ||
     occursIn "invalid number" errorMsg || occursIn "number not registered" errorMsg ||
     occursIn "not registered" errText then
    .failure 400 ("Phone number " ++ cleanedPhone ++
      " is not registered on WhatsApp or is invalid. Please verify:\n- The number includes country code (e.g., 1234567890 for US)\n- The number is correct\n- The contact has WhatsApp installed")
  else if occursIn "protocol error" errorMsg || occursIn "execution context" errorMsg ||
          occursIn "target closed" errorMsg || occursIn "session closed" errorMsg then
    .failure 503 "WhatsApp connection lost. Please go to Settings and reconnect your WhatsApp account."
  else if occursIn "timeout" errorMsg || occursIn "timed out" errorMsg then
    .failure 504 "Request timed out. Please check your internet connection and try again."
  else if occursIn "rate limit" errorMsg || occursIn "too many" errorMsg then
    .failure 429 "Too many messages sent. Please wait a few minutes before sending more messages."
  else if !(isReady && hasClient) then
    .failure 400 "WhatsApp is not connected. Please go to Settings and connect your WhatsApp account first."
  else
    .failure 500 ("Failed to send message: " ++ errText ++
      ". Please verify:\n- Phone number format is correct (include country code)\n- WhatsApp is connected\n- The number is registered on WhatsApp")

/-- The outer-catch message mapping of the send route (conversations.js
lines 606-622): specific texts for the not-connected and timeout
signatures, the raw message otherwise, and a generic text for an empty
message. -/
def outerErrorMessage (e : String) : String :=
  if e == "" then "An unexpected error occurred while sending the message."
  else if occursIn "not connected" e then
    "WhatsApp is not connected. Please check your connection in Settings."
  else if occursIn "timeout" e then "Request timed out. Please try again."
  else e

/-- The contact resolution of the send route (conversations.js lines
558-563): by object id when a contactId was supplied, else by the
cleaned phone. -/
def resolveContact (contacts : List Contact) (contactId : Option Nat)
    (cleanedPhone : String) : Option Contact :=
  match contactId with
  | some cid => contacts.find? (fun c => c.id == cid)
  | none => contacts.find? (fun c => c.phone == cleanedPhone)

/-- The messageData record persisted on dispatch success (conversations.js
lines 566-572) with the contactId added afterwards; the sentiment fields
are never supplied, so the persisted document carries the schema
defaults neutral and 0.5. -/
def outboundMessageData (cleanedPhone message : String) (now cid : Nat) : Msg :=
  { contactId := some cid, phone := cleanedPhone, direction := "outbound",
    message := trimStr message, timestamp := now, status := "sent",
    sentiment := "neutral", sentimentScore := score05 }

/-- The contact update applied after a successful dispatch to an already
existing contact (conversations.js lines 579-588): stamp lastContacted
with now, and move a new query to in-progress. -/
def agentRespondedUpdate (c : Contact) (now : Nat) : Contact :=
  { c with
    lastContacted := some now,
    queryStatus := if c.queryStatus == "new" then "in-progress" else c.queryStatus }

/-- The placeholder contact auto-created by the send route when no
contact resolves (conversations.js lines 591-596): named from the
trailing four digits, status new, zero unread, and no lastContacted. -/
def placeholderContact (freshId : Nat) (cleanedPhone : String) : Contact :=
  { id := freshId, name := "Customer " ++ takeLast4 cleanedPhone,
    phone := cleanedPhone, queryStatus := "new", unreadCount := 0,
    lastContacted := none }

/-- The send route after validation has passed (conversations.js lines
492-623): dispatch, classify a dispatch error, otherwise run the
post-dispatch persistence; a thrown persistence error is caught only by
the outer catch, which answers 500. -/
def sendDispatchPhase (isReady hasClient : Bool) (cleanedPhone message : String)
    (contactId : Option Nat) (dispatch : DispatchResult)
    (persistFail : Option String) (now freshId : Nat)
    (contacts : List Contact) (msgs : List Msg) :
    SendResponse × List Contact × List Msg :=
  match dispatch with
  | .err errText =>
    (classifySendError isReady hasClient cleanedPhone errText, contacts, msgs)
  | .ok messageId =>
    match persistFail with
    | some e => (.failure 500 (outerErrorMessage e), contacts, msgs)
    | none =>
      match resolveContact contacts contactId cleanedPhone with
      | some c =>
        let newMsg := outboundMessageData cleanedPhone message now c.id
        let c' := agentRespondedUpdate c now
        (.success messageId "Message sent successfully",
         contacts.map (fun x => if x.id == c.id then c' else x),
         newMsg :: msgs)
      | none =>
        let newContact := placeholderContact freshId cleanedPhone
        let newMsg := outboundMessageData cleanedPhone message now freshId
        (.success messageId "Message sent successfully",
         newContact :: contacts, newMsg :: msgs)

/-- The send route (conversations.js lines 441-624). Parameters beyond
the request body: the connection flags, the transport dispatch outcome,
whether the post-dispatch persistence throws (and with what message),
the clock, and the id the database would assign to a created document.
Returns the response together with the updated contact and message
collections. -/
def sendHandler (isReady hasClient : Bool) (phone message : String)
    (contactId : Option Nat) (dispatch : DispatchResult)
    (persistFail : Option String) (now freshId : Nat)
    (contacts : List Contact) (msgs : List Msg) :
    SendResponse × List Contact × List Msg :=
  if !(isReady && hasClient) then
    (.failure 400 "WhatsApp not connected. Please check your connection in Settings.",
     contacts, msgs)
  else if phone == "" || message == "" then
    (.failure 400 "Phone and message are required", contacts, msgs)
  else
    let cleanedPhone := stripNonDigits phone
    if cleanedPhone == "" then
      (.failure 400 "Phone number is required and cannot be empty.", contacts, msgs)
    else if cleanedPhone.length < 10 then
      (.failure 400 ("Phone number is too short (" ++ toString cleanedPhone.length ++
        " digits). Please include country code.\nExample: 1234567890 (US) or 911234567890 (India)"),
       contacts, msgs)
    else if 15 < cleanedPhone.length then
      (.failure 400 ("Phone number is too long (" ++ toString cleanedPhone.length ++
        " digits). Maximum is 15 digits with country code."), contacts, msgs)
    else if (trimStr message).length == 0 then
      (.failure 400 "Message cannot be empty", contacts, msgs)
    else
      sendDispatchPhase isReady hasClient cleanedPhone message contactId dispatch
        persistFail now freshId contacts msgs

/-! Concrete stores used to evaluate the aggregation read. -/

/-- A one-contact store whose stored unreadCount is 0. -/
def exContacts1 : List Contact :=
  [⟨0, "Alice", "15550001111", "new", 0, none⟩]

/-- One inbound message of contact 0. -/
def exInbound1 : Msg :=
  ⟨some 0, "15550001111", "inbound", "hi", 5, "delivered", "neutral", score05⟩

/-- The message store holding only exInbound1. -/
def exMsgs1 : List Msg := [exInbound1]

/-- A one-contact store for the sentiment counterexample. -/
def exContacts2 : List Contact :=
  [⟨1, "Bob", "15550002222", "new", 0, none⟩]

/-- An inbound message of contact 1 whose stored sentiment label is
negative (its body classifies as negative under the ingestion-side
classifier). -/
def exInbound2 : Msg :=
  ⟨some 1, "15550002222", "inbound", "bad", 1000, "delivered", "negative", score07⟩

/-- A later outbound message of contact 1. -/
def exOutbound2 : Msg :=
  ⟨some 1, "15550002222", "outbound", "we are on it", 2000, "sent", "neutral", score05⟩

/-- The message store where the newest message of contact 1 is outbound
but an older inbound message exists. -/
def exMsgs2 : List Msg := [exOutbound2, exInbound2]

/-! Helper lemmas shared by the claim theorems. -/

/-- The reduced fraction score07 is the rational 0.7. -/
theorem score07_eq_div : score07 = 7 / 10 := by
  rw [score07, Rat.mk'_eq_divInt, Rat.divInt_eq_div]
  norm_num

/-- The reduced fraction score05 is the rational 0.5. -/
theorem score05_eq_div : score05 = 1 / 2 := by
  rw [score05, Rat.mk'_eq_divInt, Rat.divInt_eq_div]
  norm_num

/-- Inserting into a sorted list preserves membership. -/
theorem mem_insertByDesc {α : Type} (key : α → Nat) (x a : α) (l : List α) :
    a ∈ insertByDesc key x l ↔ a = x ∨ a ∈ l := by
  induction l with
  | nil => simp [insertByDesc]
  | cons y ys ih =>
    simp only [insertByDesc]
    split
    · simp [or_comm, or_assoc, or_left_comm]
    · simp only [List.mem_cons, ih]
      tauto

/-- Insertion sort preserves membership. -/
theorem mem_sortByDesc {α : Type} (key : α → Nat) (a : α) (l : List α) :
    a ∈ sortByDesc key l ↔ a ∈ l := by
  induction l with
  | nil => simp [sortByDesc]
  | cons x xs ih => simp [sortByDesc, mem_insertByDesc, ih]

/-- Every entry of the aggregated view is the summary of some group key
of the message store. -/
theorem mem_view (contacts : List Contact) (msgs : List Msg) (now : Nat)
    (s : ConvSummary) (hs : s ∈ conversationsView contacts msgs now) :
    ∃ k, k ∈ groupKeys msgs ∧ s = summarize contacts msgs now k := by
  rcases List.mem_map.mp hs with ⟨k, hk, hks⟩
  exact ⟨k, (mem_sortByDesc _ k _).mp hk, hks.symm⟩

/-- A string of length zero is the empty string. -/
theorem string_length_zero_iff (s : String) : s.length = 0 ↔ s = "" := by
  rcases s with ⟨data⟩
  cases data with
  | nil => simp
  | cons c cs => simp [String.length, String.ext_iff]

/-- Under passing validation, the send route reduces to its dispatch
phase on the cleaned phone. -/
theorem sendHandler_valid (phone message : String) (contactId : Option Nat)
    (dispatch : DispatchResult) (persistFail : Option String) (now freshId : Nat)
    (contacts : List Contact) (msgs : List Msg)
    (hm : message ≠ "") (ht : trimStr message ≠ "")
    (hlo : 10 ≤ (stripNonDigits phone).length)
    (hhi : (stripNonDigits phone).length ≤ 15) :
    sendHandler true true phone message contactId dispatch persistFail now freshId
      contacts msgs =
    sendDispatchPhase true true (stripNonDigits phone) message contactId dispatch
      persistFail now freshId contacts msgs := by
  have hp : phone ≠ "" := by
    intro h
    rw [h] at hlo
    simp [stripNonDigits, String.length] at hlo
  have hcl : stripNonDigits phone ≠ "" := by
    intro h
    rw [h] at hlo
    simp [String.length] at hlo
  have htl : (trimStr message).length ≠ 0 := fun h => ht ((string_length_zero_iff _).mp h)
  have h1 : (!(true && true)) = false := rfl
  have h2 : (phone == "" || message == "") = false := by simp [hp, hm]
  have h3 : (stripNonDigits phone == "") = false := by simp [hcl]
  have h4 : ¬(stripNonDigits phone).length < 10 := by omega
  have h5 : ¬15 < (stripNonDigits phone).length := by omega
  have h6 : ((trimStr message).length == 0) = false := by simp [htl]
  simp only [sendHandler, h1, h2, h3, h6, if_neg h4, if_neg h5, Bool.false_eq_true, if_false]

/-- C5: the sentiment classifier lower-cases the text, counts the fixed
positive and negative keywords occurring as case-insensitive substrings,
answers negative with score 0.7 on a strictly greater negative count,
positive with score 0.7 on a strictly greater positive count, and
neutral with score 0.5 otherwise including ties; the three sample texts
classify as positive 0.7, negative 0.7 and neutral 0.5. -/
theorem C5_sentiment_classifier (msg : String) :
    ((negativeWords.filter (fun w => occursIn w (toLowerStr msg))).length >
        (positiveWords.filter (fun w => occursIn w (toLowerStr msg))).length →
      analyzeSentiment msg = { sentiment := "negative", score := 7 / 10 }) ∧
    ((positiveWords.filter (fun w => occursIn w (toLowerStr msg))).length >
        (negativeWords.filter (fun w => occursIn w (toLowerStr msg))).length →
      analyzeSentiment msg = { sentiment := "positive", score := 7 / 10 }) ∧
    ((positiveWords.filter (fun w => occursIn w (toLowerStr msg))).length =
        (negativeWords.filter (fun w => occursIn w (toLowerStr msg))).length →
      analyzeSentiment msg = { sentiment := "neutral", score := 1 / 2 }) ∧
    analyzeSentiment "Thank you, excellent service!" =
      { sentiment := "positive", score := 7 / 10 } ∧
    analyzeSentiment "This is broken, terrible, a complete problem" =
      { sentiment := "negative", score := 7 / 10 } ∧
    analyzeSentiment "Hello, what time is it" =
      { sentiment := "neutral", score := 1 / 2 } := by
  refine ⟨?_, ?_, ?_, ?_, ?_, ?_⟩
  · intro h
    rw [← score07_eq_div]
    simp only [analyzeSentiment]
    rw [if_pos h]
  · intro h
    rw [← score07_eq_div]
    simp only [analyzeSentiment]
    rw [if_neg (by omega), if_pos h]
  · intro h
    rw [← score05_eq_div]
    simp only [analyzeSentiment]
    rw [if_neg (by omega), if_neg (by omega)]
  · rw [← score07_eq_div]
    decide
  · rw [← score07_eq_div]
    decide
  · rw [← score05_eq_div]
    decide

/-- Witness for C5 at the concrete text "bad": the negative count
strictly exceeds the positive count and the classifier answers negative
with score 0.7. -/
theorem C5_sentiment_classifier_witness :
    (negativeWords.filter (fun w => occursIn w (toLowerStr "bad"))).length >
      (positiveWords.filter (fun w => occursIn w (toLowerStr "bad"))).length ∧
    analyzeSentiment "bad" = { sentiment := "negative", score := 7 / 10 } :=
  ⟨by decide, (C5_sentiment_classifier "bad").1 (by decide)⟩

/-- C9: calling the initializer while a client already exists or an
initialization is in flight leaves the whole connection state unchanged,
regardless of the reset flag - in particular retryCount is not reset. -/
theorem C9_start_idempotent (b : Bool) (s : WAState)
    (h : s.hasClient = true ∨ s.isInitializing = true) :
    initWhatsApp b s = s := by
  rcases h with h | h <;> simp [initWhatsApp, h]

/-- Witness for C9 at a concrete busy state with retryCount 2: the
duplicate start call changes nothing. -/
theorem C9_start_idempotent_witness :
    ((⟨true, some "qr", false, false, 2⟩ : WAState).hasClient = true ∨
      (⟨true, some "qr", false, false, 2⟩ : WAState).isInitializing = true) ∧
    initWhatsApp true ⟨true, some "qr", false, false, 2⟩ =
      ⟨true, some "qr", false, false, 2⟩ :=
  ⟨Or.inl rfl, C9_start_idempotent true ⟨true, some "qr", false, false, 2⟩ (Or.inl rfl)⟩

/-- C8: three consecutive non-fatal transport failures schedule retries
after exactly 1000, 2000 and 4000 milliseconds following the formula
min(1000 * 2 ^ (attempt - 1), 10000) with at most 3 attempts; a fourth
failure schedules nothing and leaves the session down (no client, not
initializing) - a further failure still schedules nothing, and only an
explicit reconnect brings the session back into initialization. -/
theorem C8_backoff_schedule :
    failureDelays 4 (initWhatsApp true freshState) =
      [some 1000, some 2000, some 4000, none] ∧
    (afterFailures 4 (initWhatsApp true freshState)).hasClient = false ∧
    (afterFailures 4 (initWhatsApp true freshState)).isInitializing = false ∧
    (onInitFailure (afterFailures 4 (initWhatsApp true freshState))).2 = none ∧
    (reconnectSettle (reconnectHandler (afterFailures 4 (initWhatsApp true freshState)))).hasClient = true ∧
    (reconnectSettle (reconnectHandler (afterFailures 4 (initWhatsApp true freshState)))).isInitializing = true ∧
    (∀ s : WAState, s.retryCount < 3 →
      (retryWithBackoff s).2 = some (min (1000 * 2 ^ (s.retryCount + 1 - 1)) 10000)) ∧
    (∀ s : WAState, 3 ≤ s.retryCount →
      (retryWithBackoff s).2 = none ∧ (retryWithBackoff s).1.hasClient = false ∧
        (retryWithBackoff s).1.isInitializing = false) := by
  refine ⟨by decide, by decide, by decide, by decide, by decide, by decide, ?_, ?_⟩
  · intro s h
    simp [retryWithBackoff, Nat.not_le.mpr h]
  · intro s h
    simp [retryWithBackoff, h]

/-- Witness for C8 at the fresh state: the first failure schedules the
formula delay, which is 1000 milliseconds. -/
theorem C8_backoff_schedule_witness :
    freshState.retryCount < 3 ∧
    (retryWithBackoff freshState).2 =
      some (min (1000 * 2 ^ (freshState.retryCount + 1 - 1)) 10000) :=
  ⟨by decide, C8_backoff_schedule.2.2.2.2.2.2.1 freshState (by decide)⟩

/-- C7: the send route strips every non-digit from the phone before any
length check and accepts exactly the results of 10 to 15 digits: a
result with no digits left is rejected as missing, fewer than 10 digits
is rejected with the length-specific too-short message, more than 15
with the length-specific too-long message, and an in-range result
proceeds to dispatch (with a successful dispatch and persistence the
response is the success body); the sample "+1 (234) 567-8901" normalizes
to 12345678901 with 11 digits and is accepted. -/
theorem C7_phone_validation (phone message : String) (contactId : Option Nat)
    (dispatch : DispatchResult) (persistFail : Option String) (now freshId : Nat)
    (contacts : List Contact) (msgs : List Msg)
    (hm : message ≠ "") (ht : trimStr message ≠ "") :
    (phone ≠ "" → stripNonDigits phone = "" →
      (sendHandler true true phone message contactId dispatch persistFail now freshId
        contacts msgs).1 =
        .failure 400 "Phone number is required and cannot be empty.") ∧
    (1 ≤ (stripNonDigits phone).length → (stripNonDigits phone).length < 10 →
      (sendHandler true true phone message contactId dispatch persistFail now freshId
        contacts msgs).1 =
        .failure 400 ("Phone number is too short (" ++
          toString (stripNonDigits phone).length ++
          " digits). Please include country code.\nExample: 1234567890 (US) or 911234567890 (India)")) ∧
    (15 < (stripNonDigits phone).length →
      (sendHandler true true phone message contactId dispatch persistFail now freshId
        contacts msgs).1 =
        .failure 400 ("Phone number is too long (" ++
          toString (stripNonDigits phone).length ++
          " digits). Maximum is 15 digits with country code.")) ∧
    (10 ≤ (stripNonDigits phone).length → (stripNonDigits phone).length ≤ 15 →
      ∀ mid, (sendHandler true true phone message contactId (.ok mid) none now freshId
        contacts msgs).1 = .success mid "Message sent successfully") ∧
    stripNonDigits "+1 (234) 567-8901" = "12345678901" ∧
    (stripNonDigits "+1 (234) 567-8901").length = 11 := by
  have htl : (trimStr message).length ≠ 0 :=
    fun h => ht ((string_length_zero_iff _).mp h)
  refine ⟨?_, ?_, ?_, ?_, by decide, by decide⟩
  · intro hp hcl
    have h2 : (phone == "" || message == "") = false := by simp [hp, hm]
    simp [sendHandler, h2, hcl]
  · intro hcl1 hcl2
    have hp : phone ≠ "" := by
      intro h
      rw [h] at hcl1
      simp [stripNonDigits, String.length] at hcl1
    have hcl : stripNonDigits phone ≠ "" := by
      intro h
      rw [h] at hcl1
      simp [String.length] at hcl1
    have h2 : (phone == "" || message == "") = false := by simp [hp, hm]
    have h3 : (stripNonDigits phone == "") = false := by simp [hcl]
    simp [sendHandler, h2, h3, hcl2]
  · intro hlong
    have hcl1 : 1 ≤ (stripNonDigits phone).length := by omega
    have hp : phone ≠ "" := by
      intro h
      rw [h] at hcl1
      simp [stripNonDigits, String.length] at hcl1
    have hcl : stripNonDigits phone ≠ "" := by
      intro h
      rw [h] at hcl1
      simp [String.length] at hcl1
    have h2 : (phone == "" || message == "") = false := by simp [hp, hm]
    have h3 : (stripNonDigits phone == "") = false := by simp [hcl]
    have h4 : ¬(stripNonDigits phone).length < 10 := by omega
    simp [sendHandler, h2, h3, h4, hlong]
  · intro hlo hhi mid
    rw [sendHandler_valid phone message contactId (.ok mid) none now freshId contacts
      msgs hm ht hlo hhi]
    cases h : resolveContact contacts contactId (stripNonDigits phone) <;>
      simp [sendDispatchPhase, h]

/-- Witness for C7: the sample phone is accepted end to end, and a
two-digit phone is rejected with the length-specific message. -/
theorem C7_phone_validation_witness :
    (1 ≤ (stripNonDigits "12").length ∧ (stripNonDigits "12").length < 10 ∧
      (sendHandler true true "12" "hi" none (.ok "MID") none 5 9 [] []).1 =
        .failure 400 ("Phone number is too short (" ++
          toString (stripNonDigits "12").length ++
          " digits). Please include country code.\nExample: 1234567890 (US) or 911234567890 (India)")) ∧
    (10 ≤ (stripNonDigits "+1 (234) 567-8901").length ∧
      (stripNonDigits "+1 (234) 567-8901").length ≤ 15 ∧
      (sendHandler true true "+1 (234) 567-8901" "hi" none (.ok "MID") none 5 9 [] []).1 =
        .success "MID" "Message sent successfully") :=
  ⟨⟨by decide, by decide,
    (C7_phone_validation "12" "hi" none (.ok "MID") none 5 9 [] []
      (by decide) (by decide)).2.1 (by decide) (by decide)⟩,
   ⟨by decide, by decide,
    (C7_phone_validation "+1 (234) 567-8901" "hi" none (.ok "MID") none 5 9 [] []
      (by decide) (by decide)).2.2.2.1 (by decide) (by decide) "MID"⟩⟩

/-- Counterexample to C2: with a successful dispatch and a failing
post-dispatch persistence, the send route answers a 500 error, not the
success body - the persistence failure does turn the response into an
error. -/
theorem C2_persistence_failure_counterexample :
    (sendHandler true true "12345678901" "hello" none (.ok "MID")
      (some "db write failed") 1000 7 [] []).1 = .failure 500 "db write failed" ∧
    (sendHandler true true "12345678901" "hello" none (.ok "MID")
      (some "db write failed") 1000 7 [] []).1 ≠
      .success "MID" "Message sent successfully" :=
  ⟨by decide, by decide⟩

/-- C2 amended: there is no inner catch around the post-dispatch
persistence, so a persistence failure after a successful dispatch
propagates to the outer catch and yields a 500 error response whose text
is the outer-catch mapping of the thrown message; the response reports
success exactly when the persistence also completes. -/
theorem C2_persistence_failure_propagates (phone message : String)
    (contactId : Option Nat) (persistFail : Option String) (now freshId : Nat)
    (contacts : List Contact) (msgs : List Msg) (mid : String)
    (hm : message ≠ "") (ht : trimStr message ≠ "")
    (hlo : 10 ≤ (stripNonDigits phone).length)
    (hhi : (stripNonDigits phone).length ≤ 15) :
    (∀ e, persistFail = some e →
      (sendHandler true true phone message contactId (.ok mid) persistFail now
        freshId contacts msgs).1 = .failure 500 (outerErrorMessage e)) ∧
    (persistFail = none →
      (sendHandler true true phone message contactId (.ok mid) persistFail now
        freshId contacts msgs).1 = .success mid "Message sent successfully") := by
  constructor
  · intro e he
    subst he
    rw [sendHandler_valid phone message contactId (.ok mid) (some e) now freshId
      contacts msgs hm ht hlo hhi]
    simp [sendDispatchPhase]
  · intro he
    subst he
    rw [sendHandler_valid phone message contactId (.ok mid) none now freshId
      contacts msgs hm ht hlo hhi]
    cases h : resolveContact contacts contactId (stripNonDigits phone) <;>
      simp [sendDispatchPhase, h]

/-- Witness for the amended C2: a concrete failing persistence yields the
500 response carrying the thrown text. -/
theorem C2_persistence_failure_propagates_witness :
    (sendHandler true true "12345678901" "hello" none (.ok "MID") (some "boom")
      1000 7 [] []).1 = .failure 500 (outerErrorMessage "boom") :=
  (C2_persistence_failure_propagates "12345678901" "hello" none (some "boom")
    1000 7 [] [] "MID" (by decide) (by decide) (by decide) (by decide)).1 "boom" rfl

/-- Counterexample to C3: a successful dispatch to a phone with no
stored contact auto-creates the placeholder, but that resolved contact
ends with queryStatus new (no transition to in-progress) and with no
lastContactedAt stamp. -/
theorem C3_counterexample :
    (sendHandler true true "12345678901" "hi" none (.ok "MID") none 1000 7 [] []).1 =
      .success "MID" "Message sent successfully" ∧
    ((sendHandler true true "12345678901" "hi" none (.ok "MID") none 1000 7 [] []).2.1).map
      (fun c => c.queryStatus) = ["new"] ∧
    ((sendHandler true true "12345678901" "hi" none (.ok "MID") none 1000 7 [] []).2.1).map
      (fun c => c.lastContacted) = [none] :=
  ⟨by decide, by decide, by decide⟩

/-- C3 amended: on a successful dispatch with successful persistence the
route resolves the contact by contactId when given, else by phone; when
a contact resolves, it persists the outbound sent Message linked to that
contact and rewrites it through the agent-responded update, which stamps
lastContactedAt with now and moves queryStatus from new to in-progress
(any other status is kept); when none resolves, it creates the
placeholder contact named from the trailing four digits with queryStatus
new, unreadCount 0 and no lastContactedAt, and links the persisted
Message to the fresh id - the auto-created contact receives neither the
lastContactedAt stamp nor the in-progress transition. -/
theorem C3_outbound_persistence (phone message : String) (contactId : Option Nat)
    (now freshId : Nat) (contacts : List Contact) (msgs : List Msg) (mid : String)
    (hm : message ≠ "") (ht : trimStr message ≠ "")
    (hlo : 10 ≤ (stripNonDigits phone).length)
    (hhi : (stripNonDigits phone).length ≤ 15) :
    (∀ c, resolveContact contacts contactId (stripNonDigits phone) = some c →
      sendHandler true true phone message contactId (.ok mid) none now freshId
        contacts msgs =
      (.success mid "Message sent successfully",
       contacts.map (fun x => if x.id == c.id then agentRespondedUpdate c now else x),
       outboundMessageData (stripNonDigits phone) message now c.id :: msgs)) ∧
    (resolveContact contacts contactId (stripNonDigits phone) = none →
      sendHandler true true phone message contactId (.ok mid) none now freshId
        contacts msgs =
      (.success mid "Message sent successfully",
       placeholderContact freshId (stripNonDigits phone) :: contacts,
       outboundMessageData (stripNonDigits phone) message now freshId :: msgs)) ∧
    (∀ c, (agentRespondedUpdate c now).lastContacted = some now ∧
      (c.queryStatus = "new" → (agentRespondedUpdate c now).queryStatus = "in-progress") ∧
      (c.queryStatus ≠ "new" → (agentRespondedUpdate c now).queryStatus = c.queryStatus)) ∧
    (placeholderContact freshId (stripNonDigits phone)).queryStatus = "new" ∧
    (placeholderContact freshId (stripNonDigits phone)).lastContacted = none ∧
    (placeholderContact freshId (stripNonDigits phone)).name =
      "Customer " ++ takeLast4 (stripNonDigits phone) ∧
    (outboundMessageData (stripNonDigits phone) message now freshId).direction =
      "outbound" ∧
    (outboundMessageData (stripNonDigits phone) message now freshId).status = "sent" := by
  refine ⟨?_, ?_, ?_, rfl, rfl, rfl, rfl, rfl⟩
  · intro c hc
    rw [sendHandler_valid phone message contactId (.ok mid) none now freshId
      contacts msgs hm ht hlo hhi]
    simp [sendDispatchPhase, hc]
  · intro hc
    rw [sendHandler_valid phone message contactId (.ok mid) none now freshId
      contacts msgs hm ht hlo hhi]
    simp [sendDispatchPhase, hc]
  · intro c
    refine ⟨rfl, ?_, ?_⟩
    · intro h
      simp [agentRespondedUpdate, h]
    · intro h
      simp [agentRespondedUpdate, h]

/-- Witness for the amended C3 on the auto-create branch with a concrete
store: the placeholder is created and the sent Message linked to it. -/
theorem C3_outbound_persistence_witness :
    resolveContact [] none (stripNonDigits "12345678901") = none ∧
    sendHandler true true "12345678901" "hi" none (.ok "MID") none 1000 7 [] [] =
      (.success "MID" "Message sent successfully",
       [placeholderContact 7 (stripNonDigits "12345678901")],
       [outboundMessageData (stripNonDigits "12345678901") "hi" 1000 7]) :=
  ⟨rfl, (C3_outbound_persistence "12345678901" "hi" none 1000 7 [] [] "MID"
    (by decide) (by decide) (by decide) (by decide)).2.1 rfl⟩

/-- C10: every Message persisted by the outbound send pipeline is
outbound with deliveryStatus sent and carries the schema-default
sentiment fields, label neutral and score 0.5 - the send route never
invokes the sentiment classifier. -/
theorem C10_outbound_defaults (phone message : String) (contactId : Option Nat)
    (now freshId : Nat) (contacts : List Contact) (msgs : List Msg) (mid : String)
    (hm : message ≠ "") (ht : trimStr message ≠ "")
    (hlo : 10 ≤ (stripNonDigits phone).length)
    (hhi : (stripNonDigits phone).length ≤ 15) :
    ∃ m, (sendHandler true true phone message contactId (.ok mid) none now freshId
        contacts msgs).2.2 = m :: msgs ∧
      m.direction = "outbound" ∧ m.status = "sent" ∧
      m.sentiment = "neutral" ∧ m.sentimentScore = 1 / 2 := by
  rw [sendHandler_valid phone message contactId (.ok mid) none now freshId
    contacts msgs hm ht hlo hhi]
  cases h : resolveContact contacts contactId (stripNonDigits phone) with
  | some c =>
    exact ⟨outboundMessageData (stripNonDigits phone) message now c.id,
      by simp [sendDispatchPhase, h], rfl, rfl, rfl, score05_eq_div⟩
  | none =>
    exact ⟨outboundMessageData (stripNonDigits phone) message now freshId,
      by simp [sendDispatchPhase, h], rfl, rfl, rfl, score05_eq_div⟩

/-- Witness for C10 at a concrete send: the persisted message is
outbound, sent, neutral, 0.5. -/
theorem C10_outbound_defaults_witness :
    ∃ m, (sendHandler true true "12345678901" "hi" none (.ok "MID") none 1000 7
        [] []).2.2 = m :: [] ∧
      m.direction = "outbound" ∧ m.status = "sent" ∧
      m.sentiment = "neutral" ∧ m.sentimentScore = 1 / 2 :=
  C10_outbound_defaults "12345678901" "hi" none 1000 7 [] [] "MID"
    (by decide) (by decide) (by decide) (by decide)

/-- C6: an inbound transport message for an unknown normalized phone
creates a contact with queryStatus new, unreadCount 1, lastContacted
equal to the message timestamp and the best-effort enriched name (the
generic placeholder when the lookup fails); for a known contact it
increments unreadCount, stamps lastContacted with the message timestamp,
and reopens to new exactly when the status was resolved or closed. -/
theorem C6_inbound_reconciliation (contacts : List Contact) (msgs : List Msg)
    (m : InboundMsg) (info : ContactInfoResult) (freshContactId : Nat) :
    (contacts.find? (fun c => c.phone == replaceFirstStr m.fromId "@c.us" "") = none →
      ∃ c, (handleInbound contacts msgs m info freshContactId).1 = c :: contacts ∧
        c.queryStatus = "new" ∧ c.unreadCount = 1 ∧
        c.lastContacted = some (m.timestamp * 1000) ∧
        c.phone = replaceFirstStr m.fromId "@c.us" "" ∧
        c.name = resolveName info) ∧
    (∀ c, contacts.find? (fun x => x.phone == replaceFirstStr m.fromId "@c.us" "") =
        some c →
      ∃ c', (handleInbound contacts msgs m info freshContactId).1 =
          contacts.map (fun x => if x.id == c.id then c' else x) ∧
        c'.unreadCount = c.unreadCount + 1 ∧
        c'.lastContacted = some (m.timestamp * 1000) ∧
        (c.queryStatus = "resolved" ∨ c.queryStatus = "closed" →
          c'.queryStatus = "new") ∧
        (c.queryStatus ≠ "resolved" ∧ c.queryStatus ≠ "closed" →
          c'.queryStatus = c.queryStatus)) ∧
    resolveName ContactInfoResult.failed = "Customer" := by
  refine ⟨?_, ?_, rfl⟩
  · intro h
    refine ⟨Contact.mk freshContactId (resolveName info)
        (replaceFirstStr m.fromId "@c.us" "") "new" 1 (some (m.timestamp * 1000)),
      ?_, rfl, rfl, rfl, rfl, rfl⟩
    simp only [handleInbound, h]
  · intro c h
    refine ⟨{ c with
        unreadCount := c.unreadCount + 1,
        queryStatus :=
          if c.queryStatus == "resolved" || c.queryStatus == "closed" then "new"
          else c.queryStatus,
        lastContacted := some (m.timestamp * 1000) }, ?_, rfl, rfl, ?_, ?_⟩
    · simp only [handleInbound, h]
    · intro hq
      rcases hq with h1 | h1 <;> simp [h1]
    · intro hq
      have b1 : (c.queryStatus == "resolved") = false := by simp [hq.1]
      have b2 : (c.queryStatus == "closed") = false := by simp [hq.2]
      simp [b1, b2]

/-- Witness for C6 at a concrete inbound event from an unknown phone
with a failing name lookup: the contact is created as claimed. -/
theorem C6_inbound_reconciliation_witness :
    ([] : List Contact).find? (fun c =>
      c.phone == replaceFirstStr "15551234567@c.us" "@c.us" "") = none ∧
    ∃ c, (handleInbound [] [] ⟨"15551234567@c.us", "I have a problem with my order", 42⟩
        ContactInfoResult.failed 3).1 = c :: [] ∧
      c.queryStatus = "new" ∧ c.unreadCount = 1 ∧
      c.lastContacted = some (42 * 1000) ∧
      c.phone = replaceFirstStr "15551234567@c.us" "@c.us" "" ∧
      c.name = resolveName ContactInfoResult.failed :=
  ⟨rfl, (C6_inbound_reconciliation [] []
    ⟨"15551234567@c.us", "I have a problem with my order", 42⟩
    ContactInfoResult.failed 3).1 rfl⟩

/-- Counterexample to C1: a contact whose stored unreadCount is 0 but
which has one inbound message is reported by the aggregation with
unreadCount 1 - the view recomputes the counter from the messages
instead of reading the authoritative Contact field. -/
theorem C1_counterexample :
    ((conversationsView exContacts1 exMsgs1 100).map (fun s => s.unreadCount)) = [1] ∧
    ((conversationsView exContacts1 exMsgs1 100).map
      (fun s => s.contact.map (fun c => c.unreadCount))) = [some 0] :=
  ⟨by decide, by decide⟩

/-- C1 amended: every entry of the aggregated view reports as its
unreadCount the number of inbound messages in that entry's message
group, recomputed from the Message store; the Contact document's stored
unreadCount field is not consulted for this field. -/
theorem C1_unread_recomputed (contacts : List Contact) (msgs : List Msg) (now : Nat)
    (s : ConvSummary) (hs : s ∈ conversationsView contacts msgs now) :
    ∃ k, k ∈ groupKeys msgs ∧ s = summarize contacts msgs now k ∧
      s.unreadCount =
        (msgs.filter (fun m => m.contactId == k && m.direction == "inbound")).length := by
  rcases mem_view contacts msgs now s hs with ⟨k, hk, rfl⟩
  refine ⟨k, hk, rfl, ?_⟩
  have hu : (summarize contacts msgs now k).unreadCount =
      ((groupOf msgs k).filter (fun m => m.direction == "inbound")).length := rfl
  rw [hu, groupOf, List.filter_filter]
  simp only [Bool.and_comm]

/-- Witness for the amended C1 at the concrete one-contact store: the
single view entry is the summary of key 0 and its unreadCount is the
inbound message count of that key. -/
theorem C1_unread_recomputed_witness :
    ∃ k, k ∈ groupKeys exMsgs1 ∧
      summarize exContacts1 exMsgs1 100 (some 0) = summarize exContacts1 exMsgs1 100 k ∧
      (summarize exContacts1 exMsgs1 100 (some 0)).unreadCount =
        (exMsgs1.filter (fun m => m.contactId == k && m.direction == "inbound")).length :=
  C1_unread_recomputed exContacts1 exMsgs1 100
    (summarize exContacts1 exMsgs1 100 (some 0)) (by decide)

/-- Counterexample to C4: a contact whose newest message is outbound
but which has an older inbound message with stored sentiment label
negative is reported with sentiment neutral - the view does not read
the most recent inbound message's label. -/
theorem C4_counterexample :
    ((conversationsView exContacts2 exMsgs2 5000).map (fun s => s.sentiment)) =
      ["neutral"] ∧
    latestMsg ((groupOf exMsgs2 (some 1)).filter
      (fun m => m.direction == "inbound")) = some exInbound2 ∧
    exInbound2.sentiment = "negative" :=
  ⟨by decide, by decide, by decide⟩

/-- C4 amended: the sentiment reported for a view entry is computed from
the entry's newest message of any direction: when that message is
inbound its text is reclassified against the reduced view keyword lists
(the stored label is not read), and otherwise - newest message outbound,
or no message at all - the sentiment is neutral even when older inbound
messages exist. -/
theorem C4_view_sentiment (contacts : List Contact) (msgs : List Msg) (now : Nat)
    (s : ConvSummary) (hs : s ∈ conversationsView contacts msgs now) :
    s.sentiment = viewSentiment s.lastMessage ∧
    (s.lastMessage = none → s.sentiment = "neutral") ∧
    (∀ lm, s.lastMessage = some lm → lm.direction ≠ "inbound" →
      s.sentiment = "neutral") := by
  rcases mem_view contacts msgs now s hs with ⟨k, hk, rfl⟩
  refine ⟨rfl, ?_, ?_⟩
  · intro h
    have hv : (summarize contacts msgs now k).sentiment =
        viewSentiment (summarize contacts msgs now k).lastMessage := rfl
    rw [hv, h]
    rfl
  · intro lm h hdir
    have hv : (summarize contacts msgs now k).sentiment =
        viewSentiment (summarize contacts msgs now k).lastMessage := rfl
    rw [hv, h]
    simp [viewSentiment, hdir]

/-- Witness for the amended C4 on the concrete store whose newest
message of contact 1 is outbound: the entry's sentiment is the view
classification of that newest message. -/
theorem C4_view_sentiment_witness :
    (summarize exContacts2 exMsgs2 5000 (some 1)).sentiment =
      viewSentiment (summarize exContacts2 exMsgs2 5000 (some 1)).lastMessage :=
  (C4_view_sentiment exContacts2 exMsgs2 5000
    (summarize exContacts2 exMsgs2 5000 (some 1)) (by decide)).1

end WhatsConnect
